import Mathlib

/-!
Verification development for the jersi drawer: a shallow embedding of the
board layout registry, the piece-stacking state model, the notation parser
and the logical-to-plane coordinate transform of `jersi_gui.py`, together
with theorems settling the specification claims about them.

Conventions of the embedding:
* Python dictionaries become association lists (`List (String × _)`) with
  `dict_find` / `dict_set` mirroring `d[k]` reads and writes (a write to an
  absent key appends, as in an insertion-ordered Python dict).
* Python exceptions become an explicit `PyError` value threaded through
  `Except` / `Option`.  Raising a non-exception object (the source does
  `raise("No room ...")` in the stack-overflow branch) is a `TypeError` in
  Python 3; it is modelled by the dedicated constructor
  `PyError.typeErrorRaiseNonException` which records the string the source
  tried to raise (that message is never delivered to the user).
* Floating point geometry is idealised over `ℝ`.
-/

set_option maxRecDepth 20000

/-- Errors arising in the modelled Python code.  `jersiError` models the
`JersiError` exception raised through `jersi_assert`; `keyError` models a
Python `KeyError` on a dictionary access; `typeErrorRaiseNonException`
models the `TypeError` Python 3 raises when the program tries to raise a
bare string (the field records the intended, undelivered message);
`valueErrorUnpack` models a tuple-unpacking `ValueError`. -/
inductive PyError where
  | jersiError (message : String)
  | keyError (key : String)
  | typeErrorRaiseNonException (intended : String)
  | valueErrorUnpack (message : String)
  deriving DecidableEq

/-- The seven cube kinds of `class CubeType` (the enum value is the
uppercase letter of the kind). -/
inductive CubeType where
  | KING
  | FOOL
  | PAPER
  | ROCK
  | SCISSORS
  | MOUNTAIN
  | WISE
  deriving DecidableEq

/-- Enum value of a `CubeType`, as in the source (`KING = 'K'`, ...). -/
def CubeType.value : CubeType → String
  | .KING => "K"
  | .FOOL => "F"
  | .PAPER => "P"
  | .ROCK => "R"
  | .SCISSORS => "S"
  | .MOUNTAIN => "M"
  | .WISE => "W"

/-- The two cube colors of `class CubeColor`. -/
inductive CubeColor where
  | BLACK
  | WHITE
  deriving DecidableEq

/-- Boolean test for the WHITE color. -/
def CubeColor.isWhite : CubeColor → Bool
  | .WHITE => true
  | .BLACK => false

/-- The four cosmetic hexagon fill categories of `class HexagonColor`. -/
inductive HexagonColor where
  | INNER
  | MAIN
  | OUTER
  | EXTRA
  deriving DecidableEq

/-- Enum value of a `HexagonColor`: the `rgb_color` hex string computed at
class-definition time in the source. -/
def HexagonColor.value : HexagonColor → String
  | .INNER => "#a66d3c"
  | .MAIN => "#f2ca80"
  | .OUTER => "#bf5934"
  | .EXTRA => "#bfb8b4"

/-- Lookup in an insertion-ordered string-keyed dictionary: the model of a
Python `d[k]` read (`none` models a `KeyError`). -/
def dict_find {β : Type} : List (String × β) → String → Option β
  | [], _ => none
  | p :: rest, key => if p.1 = key then some p.2 else dict_find rest key

/-- Write to an insertion-ordered string-keyed dictionary: the model of a
Python `d[k] = v`.  An existing key is overwritten in place; an absent key
is appended at the end, as in a Python (3.7+) dict. -/
def dict_set {β : Type} : List (String × β) → String → β → List (String × β)
  | [], key, v => [(key, v)]
  | p :: rest, key, v => if p.1 = key then (key, v) :: rest else p :: dict_set rest key v

/-- A colored piece: the `(CubeType, CubeColor)` pairs stored as values of
the `CUBE_COLORED_TYPES` dictionary. -/
abbrev CubeColoredType := CubeType × CubeColor

/-- The `CUBE_COLORED_TYPES` dictionary of the source, in its insertion
order: uppercase codes map to WHITE pieces, lowercase codes to BLACK. -/
def CUBE_COLORED_TYPES : List (String × CubeColoredType) :=
  [ ("K", (.KING, .WHITE))
  , ("F", (.FOOL, .WHITE))
  , ("R", (.ROCK, .WHITE))
  , ("P", (.PAPER, .WHITE))
  , ("S", (.SCISSORS, .WHITE))
  , ("M", (.MOUNTAIN, .WHITE))
  , ("W", (.WISE, .WHITE))
  , ("k", (.KING, .BLACK))
  , ("f", (.FOOL, .BLACK))
  , ("r", (.ROCK, .BLACK))
  , ("p", (.PAPER, .BLACK))
  , ("s", (.SCISSORS, .BLACK))
  , ("m", (.MOUNTAIN, .BLACK))
  , ("w", (.WISE, .BLACK))
  ]

/-- The dictionary read `CUBE_COLORED_TYPES[cube_label]`. -/
def cube_colored_type (cube_label : String) : Option CubeColoredType :=
  dict_find CUBE_COLORED_TYPES cube_label

/-! ## Geometry constants (source lines 181-228), idealised over `ℝ`.
`CANVAS_WIDTH = int(CANVAS_HEIGHT * 1) = 600`; `NX`/`NY` are the Python
ints `9 + 2` and `9`, only ever used in real arithmetic here. -/

noncomputable def CANVAS_HEIGHT : ℝ := 600

noncomputable def CANVAS_WIDTH : ℝ := 600

noncomputable def NX : ℝ := 9 + 2

noncomputable def NY : ℝ := 9

noncomputable def HEXA_VERTEX_COUNT : ℝ := 6

noncomputable def HEXA_SIDE_ANGLE : ℝ := 2 * Real.pi / HEXA_VERTEX_COUNT

noncomputable def HEXA_WIDTH : ℝ := min CANVAS_HEIGHT CANVAS_WIDTH / max NX NY

noncomputable def HEXA_SIDE : ℝ := HEXA_WIDTH * Real.tan (HEXA_SIDE_ANGLE / 2)

noncomputable def HEXA_DELTA_Y : ℝ := Real.sqrt (HEXA_SIDE ^ 2 - (HEXA_WIDTH / 2) ^ 2)

/-- Componentwise vector addition (`TinyVector.__add__`). -/
def vec_add (a b : ℝ × ℝ) : ℝ × ℝ := (a.1 + b.1, a.2 + b.2)

/-- Scalar multiple of a vector (`TinyVector.__mul__` / `__rmul__`). -/
def vec_scale (s : ℝ) (a : ℝ × ℝ) : ℝ × ℝ := (s * a.1, s * a.2)

/-- Origin of the orthonormal x-y frame (`ORIGIN`): the canvas center. -/
noncomputable def ORIGIN : ℝ × ℝ := (CANVAS_WIDTH / 2, CANVAS_HEIGHT / 2)

/-- `UNIT_X = TinyVector((1, 0))`. -/
def UNIT_X : ℝ × ℝ := (1, 0)

/-- `UNIT_Y = TinyVector((0, -1))`: note the baked-in screen orientation,
the second component is negative one. -/
def UNIT_Y : ℝ × ℝ := (0, -1)

/-- `UNIT_U = UNIT_X`. -/
def UNIT_U : ℝ × ℝ := UNIT_X

/-- `UNIT_V = cos(HEXA_SIDE_ANGLE)*UNIT_X + sin(HEXA_SIDE_ANGLE)*UNIT_Y`. -/
noncomputable def UNIT_V : ℝ × ℝ :=
  vec_add (vec_scale (Real.cos HEXA_SIDE_ANGLE) UNIT_X)
    (vec_scale (Real.sin HEXA_SIDE_ANGLE) UNIT_Y)

/-! ## Board layout registry (`class Hexagon` and the startup `Hexagon.add`
calls, source lines 287-412). -/

/-- One board cell.  `extra_shift` stores the manual reserve nudge of the
source as its pair of rational coefficients `(q₁, q₂)` standing for the
vector `q₁*HEXA_WIDTH*UNIT_X + q₂*HEXA_DELTA_Y*UNIT_Y` (the source stores
the evaluated float vector; every shift in the source has exactly this
shape, see `extra_shift_vector` for the interpretation). -/
structure Hexagon where
  label : String
  position_uv : Int × Int
  color : String
  is_extra : Bool
  extra_shift : Option (ℚ × ℚ)

/-- Interpretation of an `extra_shift` coefficient pair as the plane
vector the source stores. -/
noncomputable def extra_shift_vector (q : ℚ × ℚ) : ℝ × ℝ :=
  vec_add (vec_scale ((q.1 : ℝ) * HEXA_WIDTH) UNIT_X)
    (vec_scale ((q.2 : ℝ) * HEXA_DELTA_Y) UNIT_Y)

/-- `Hexagon.add`: the duplicate-label guard (`jersi_assert(label not in
Hexagon.alls, ...)`, with the source's odd message text), then the
constructor's consistency assert (`is_extra == (extra_shift is not None)`,
message kept with the source's typo), then the dictionary insertion. -/
def Hexagon.add (alls : List (String × Hexagon)) (label : String)
    (position_uv : Int × Int) (color : String) (is_extra : Bool)
    (extra_shift : Option (ℚ × ℚ)) : Except PyError (List (String × Hexagon)) :=
  if (dict_find alls label).isSome then
    .error (.jersiError ("no hexagon with label '" ++ label ++ "'"))
  else if is_extra = extra_shift.isSome then
    .ok (dict_set alls label ⟨label, position_uv, color, is_extra, extra_shift⟩)
  else
    .error (.jersiError ("is_extra and extra_shift not consisten for label '" ++ label ++ "'"))

/-- A regular (non-reserve) registry entry. -/
def reg (label : String) (position_uv : Int × Int) (color : String) : String × Hexagon :=
  (label, ⟨label, position_uv, color, false, none⟩)

/-- A reserve ("extra") registry entry with its shift coefficients. -/
def reg_extra (label : String) (position_uv : Int × Int) (shift : ℚ × ℚ) : String × Hexagon :=
  (label, ⟨label, position_uv, HexagonColor.EXTRA.value, true, some shift⟩)

/-- The `Hexagon.alls` registry after the fixed startup sequence of
`Hexagon.add` calls (source lines 309-412), in insertion order. -/
def Hexagon.alls : List (String × Hexagon) :=
  [ reg "a1" (-1, -4) HexagonColor.OUTER.value
  , reg "a2" (0, -4) HexagonColor.OUTER.value
  , reg "a3" (1, -4) HexagonColor.OUTER.value
  , reg "a4" (2, -4) HexagonColor.OUTER.value
  , reg "a5" (3, -4) HexagonColor.OUTER.value
  , reg "a6" (4, -4) HexagonColor.OUTER.value
  , reg "a7" (5, -4) HexagonColor.OUTER.value
  , reg_extra "a" (6, -4) (3/4, -1)
  , reg "b1" (-2, -3) HexagonColor.OUTER.value
  , reg "b2" (-1, -3) HexagonColor.MAIN.value
  , reg "b3" (0, -3) HexagonColor.MAIN.value
  , reg "b4" (1, -3) HexagonColor.MAIN.value
  , reg "b5" (2, -3) HexagonColor.MAIN.value
  , reg "b6" (3, -3) HexagonColor.MAIN.value
  , reg "b7" (4, -3) HexagonColor.MAIN.value
  , reg "b8" (5, -3) HexagonColor.OUTER.value
  , reg_extra "b" (6, -3) (1/4, 0)
  , reg "c1" (-2, -2) HexagonColor.OUTER.value
  , reg "c2" (-1, -2) HexagonColor.MAIN.value
  , reg "c3" (0, -2) HexagonColor.INNER.value
  , reg "c4" (1, -2) HexagonColor.INNER.value
  , reg "c5" (2, -2) HexagonColor.INNER.value
  , reg "c6" (3, -2) HexagonColor.MAIN.value
  , reg "c7" (4, -2) HexagonColor.OUTER.value
  , reg_extra "c" (5, -2) (3/4, 1)
  , reg "d1" (-3, -1) HexagonColor.OUTER.value
  , reg "d2" (-2, -1) HexagonColor.MAIN.value
  , reg "d3" (-1, -1) HexagonColor.INNER.value
  , reg "d4" (0, -1) HexagonColor.MAIN.value
  , reg "d5" (1, -1) HexagonColor.MAIN.value
  , reg "d6" (2, -1) HexagonColor.INNER.value
  , reg "d7" (3, -1) HexagonColor.MAIN.value
  , reg "d8" (4, -1) HexagonColor.OUTER.value
  , reg "e1" (-4, 0) HexagonColor.OUTER.value
  , reg "e2" (-3, 0) HexagonColor.MAIN.value
  , reg "e3" (-2, 0) HexagonColor.INNER.value
  , reg "e4" (-1, 0) HexagonColor.MAIN.value
  , reg "e5" (0, 0) HexagonColor.INNER.value
  , reg "e6" (1, 0) HexagonColor.MAIN.value
  , reg "e7" (2, 0) HexagonColor.INNER.value
  , reg "e8" (3, 0) HexagonColor.MAIN.value
  , reg "e9" (4, 0) HexagonColor.OUTER.value
  , reg "f1" (-4, 1) HexagonColor.OUTER.value
  , reg "f2" (-3, 1) HexagonColor.MAIN.value
  , reg "f3" (-2, 1) HexagonColor.INNER.value
  , reg "f4" (-1, 1) HexagonColor.MAIN.value
  , reg "f5" (0, 1) HexagonColor.MAIN.value
  , reg "f6" (1, 1) HexagonColor.INNER.value
  , reg "f7" (2, 1) HexagonColor.MAIN.value
  , reg "f8" (3, 1) HexagonColor.OUTER.value
  , reg_extra "g" (-5, 2) (-3/4, -1)
  , reg "g1" (-4, 2) HexagonColor.OUTER.value
  , reg "g2" (-3, 2) HexagonColor.MAIN.value
  , reg "g3" (-2, 2) HexagonColor.INNER.value
  , reg "g4" (-1, 2) HexagonColor.INNER.value
  , reg "g5" (0, 2) HexagonColor.INNER.value
  , reg "g6" (1, 2) HexagonColor.MAIN.value
  , reg "g7" (2, 2) HexagonColor.OUTER.value
  , reg_extra "h" (-6, 3) (-1/4, 0)
  , reg "h1" (-5, 3) HexagonColor.OUTER.value
  , reg "h2" (-4, 3) HexagonColor.MAIN.value
  , reg "h3" (-3, 3) HexagonColor.MAIN.value
  , reg "h4" (-2, 3) HexagonColor.MAIN.value
  , reg "h5" (-1, 3) HexagonColor.MAIN.value
  , reg "h6" (0, 3) HexagonColor.MAIN.value
  , reg "h7" (1, 3) HexagonColor.MAIN.value
  , reg "h8" (2, 3) HexagonColor.OUTER.value
  , reg_extra "i" (-6, 4) (-3/4, 1)
  , reg "i1" (-5, 4) HexagonColor.OUTER.value
  , reg "i2" (-4, 4) HexagonColor.OUTER.value
  , reg "i3" (-3, 4) HexagonColor.OUTER.value
  , reg "i4" (-2, 4) HexagonColor.OUTER.value
  , reg "i5" (-1, 4) HexagonColor.OUTER.value
  , reg "i6" (0, 4) HexagonColor.OUTER.value
  , reg "i7" (1, 4) HexagonColor.OUTER.value
  ]

/-- The membership / lookup test `label in Hexagon.alls` /
`Hexagon.alls[label]`. -/
def Hexagon.find (label : String) : Option Hexagon :=
  dict_find Hexagon.alls label

/-! ## Board state (`STATE`, `reset_state`, `set_cube_at_position`,
`init_state`; source lines 230-231, 1056-1120, 1155-1171). -/

/-- The two piece slots of one position: the Python 2-element list
`[bottom, top]` that `reset_state` stores at every label. -/
abbrev PositionState := Option CubeColoredType × Option CubeColoredType

/-- The global `STATE` dictionary, keyed by cell label. -/
abbrev State := List (String × PositionState)

/-- `reset_state()`: overwrites `STATE[hexagon.label] = [None, None]` for
every registered hexagon.  Since every key the program ever creates is a
registered label, the result is the fresh all-empty dictionary below,
independent of the previous contents. -/
def reset_state : State :=
  Hexagon.alls.map (fun p => (p.2.label, ((none, none) : PositionState)))

/-- `set_cube_at_position(position_label, cube_label)` (source lines
1155-1171), acting on an explicit state and returning the new state or the
raised error.  Both `jersi_assert` guards of the source check
`position_label in Hexagon.alls` (the second one, whose message speaks of
the cube colored type, re-checks the position instead of the cube code).
The dictionary reads `STATE[position_label]` and
`CUBE_COLORED_TYPES[cube_label]` can raise `KeyError`; the final branch is
the source's `raise("No room ...")`, a bare string raise. -/
def set_cube_at_position (state : State) (position_label : String)
    (cube_label : String) : Except PyError State :=
  if (Hexagon.find position_label).isNone then
    .error (.jersiError ("no hexagon at label '" ++ position_label ++ "'"))
  else if (Hexagon.find position_label).isNone then
    .error (.jersiError ("no cube colored type '" ++ cube_label ++ "'"))
  else
    match dict_find state position_label with
    | none => .error (.keyError position_label)
    | some slots =>
      if slots.1.isNone then
        match cube_colored_type cube_label with
        | none => .error (.keyError cube_label)
        | some cct => .ok (dict_set state position_label (some cct, slots.2))
      else if slots.2.isNone then
        match cube_colored_type cube_label with
        | none => .error (.keyError cube_label)
        | some cct => .ok (dict_set state position_label (slots.1, some cct))
      else
        .error (.typeErrorRaiseNonException
          ("No room for cube '" ++ cube_label ++ "' at position '" ++ position_label ++ "' !!!"))

/-- Run a sequence of `set_cube_at_position(position, cube)` calls in
order, stopping at the first raised error (the state accumulated so far is
kept, as the Python global would be). -/
def run_setup (state : State) : List (String × String) → State × Option PyError
  | [] => (state, none)
  | (position_label, cube_label) :: rest =>
    match set_cube_at_position state position_label cube_label with
    | .ok s2 => run_setup s2 rest
    | .error e => (state, some e)

/-- The `(position, cube)` arguments of the `set_cube_at_position` calls
of `init_state` (source lines 1061-1120), in call order. -/
def INIT_SETUP : List (String × String) :=
  [ ("b1", "F"), ("b8", "F"), ("a4", "K")
  , ("b2", "R"), ("b3", "P"), ("b4", "S"), ("b5", "R"), ("b6", "P"), ("b7", "S")
  , ("a3", "R"), ("a2", "S"), ("a1", "P"), ("a5", "S"), ("a6", "R"), ("a7", "P")
  , ("h1", "f"), ("h8", "f"), ("i4", "k")
  , ("h7", "r"), ("h6", "p"), ("h5", "s"), ("h4", "r"), ("h3", "p"), ("h2", "s")
  , ("i5", "r"), ("i6", "s"), ("i7", "p"), ("i3", "s"), ("i2", "r"), ("i1", "p")
  , ("c", "W"), ("c", "W"), ("b", "M"), ("b", "M"), ("a", "M"), ("a", "M")
  , ("i", "m"), ("i", "m"), ("h", "m"), ("h", "m"), ("g", "w"), ("g", "w")
  ]

/-- `init_state()`: `reset_state()` followed by the fixed setup sequence. -/
def init_state : State × Option PyError :=
  run_setup reset_state INIT_SETUP

/-! ## Notation parser (`read_state_file`, source lines 1123-1152). -/

/-- The Python regex class `\s` restricted to ASCII, which is all the
input can contain here. -/
def is_space (c : Char) : Bool :=
  c = ' ' || c = '\t' || c = '\n' || c = '\r' || c = '\x0b' || c = '\x0c'

/-- Split a character stream into lines the way Python file iteration
does: each line keeps its terminating newline; a final fragment without a
newline is a line of its own; the empty stream has no lines. -/
def split_lines_chars : List Char → List (List Char)
  | [] => []
  | c :: cs =>
    if c = '\n' then ['\n'] :: split_lines_chars cs
    else
      match split_lines_chars cs with
      | [] => [[c]]
      | l :: ls => (c :: l) :: ls

/-- The lines of the input text, as iterated by `for line in file_stream`. -/
def split_lines (text : String) : List String :=
  (split_lines_chars text.data).map (fun l => (⟨l⟩ : String))

/-- `re.match(r'^\s*$', line)`: the line is whitespace only. -/
def is_blank_line (line : String) : Bool :=
  line.data.all is_space

/-- `re.match(r'^\s*#.*$', line)`: optional whitespace then `#`.  Lines
produced by `split_lines` contain a newline only terminally, so the `.*$`
tail of the regex always matches the remainder. -/
def is_comment_line (line : String) : Bool :=
  match line.data.dropWhile is_space with
  | '#' :: _ => true
  | _ => false

/-- `re.sub(r'\s', '', line)`: remove every whitespace character. -/
def re_sub_whitespace (line : String) : String :=
  ⟨line.data.filter (fun c => !is_space c)⟩

/-- `re.split` on a single-character separator: `split_on_char ':' "K:a4"`
is `["K", "a4"]`, and the empty string splits to one empty fragment. -/
def split_on_char (sep : Char) : List Char → List (List Char)
  | [] => [[]]
  | c :: cs =>
    if c = sep then [] :: split_on_char sep cs
    else
      match split_on_char sep cs with
      | [] => [[c]]
      | l :: ls => (c :: l) :: ls

/-- The code characters of the token regex class `[KFRPSMW]|[kfrpsmw]`. -/
def CODE_CHARS : List Char :=
  ['K', 'F', 'R', 'P', 'S', 'M', 'W', 'k', 'f', 'r', 'p', 's', 'm', 'w']

/-- Full match of an item against the token regex
`^([KFRPSMW]|[kfrpsmw]):[a-i][1-9]?$`, over the item's characters. -/
def token_chars_match : List Char → Bool
  | [code, colon, row] =>
    colon = ':' && CODE_CHARS.contains code && ('a' ≤ row && row ≤ 'i')
  | [code, colon, row, digit] =>
    colon = ':' && CODE_CHARS.contains code && ('a' ≤ row && row ≤ 'i')
      && ('1' ≤ digit && digit ≤ '9')
  | _ => false

/-- `re.match(r'^([KFRPSMW]|[kfrpsmw]):[a-i][1-9]?$', item)` as a test. -/
def token_matches (item : String) : Bool :=
  token_chars_match item.data

/-- `re.split(r':', item)`: the instruction appended for a matching item. -/
def item_instruction (item : String) : List String :=
  (split_on_char ':' item.data).map (fun l => (⟨l⟩ : String))

/-- The error message of the `raise JersiError(r"wrong item '%s' in line
'%s'" % (item, line))` branch. -/
def wrong_item_msg (item line : String) : String :=
  "wrong item '" ++ item ++ "' in line '" ++ line ++ "'"

/-- Scan the `/`-separated items of one (whitespace-stripped) line,
collecting `re.split(':', item)` instructions and raising `JersiError` at
the first item that fails the token regex. -/
def scan_line_items (line_stripped : String) :
    List String → Except PyError (List (List String))
  | [] => .ok []
  | item :: rest =>
    if token_matches item then
      match scan_line_items line_stripped rest with
      | .ok tail => .ok (item_instruction item :: tail)
      | .error e => .error e
    else
      .error (.jersiError (wrong_item_msg item line_stripped))

/-- The reading loop of `read_state_file`: skip blank and comment lines;
strip whitespace from every other line, split it on `/` and scan its
items.  The collected instructions of all lines are concatenated in file
order; the first bad item aborts the loop with its error. -/
def read_lines : List String → Except PyError (List (List String))
  | [] => .ok []
  | line :: rest =>
    if is_blank_line line then read_lines rest
    else if is_comment_line line then read_lines rest
    else
      let stripped := re_sub_whitespace line
      match scan_line_items stripped ((split_on_char '/' stripped.data).map (fun l => (⟨l⟩ : String))) with
      | .error e => .error e
      | .ok instrs =>
        match read_lines rest with
        | .error e => .error e
        | .ok more => .ok (instrs ++ more)

/-- The application loop `for (cube_label, position_label) in
instructions: set_cube_at_position(position_label, cube_label)`, run on a
state; an error stops the loop, keeping the mutations made so far.  An
instruction that is not a two-element list would fail Python's tuple
unpacking (unreachable for instructions produced by the token regex). -/
def apply_instructions (state : State) : List (List String) → State × Option PyError
  | [] => (state, none)
  | instruction :: rest =>
    match instruction with
    | [cube_label, position_label] =>
      match set_cube_at_position state position_label cube_label with
      | .ok s2 => apply_instructions s2 rest
      | .error e => (state, some e)
    | _ => (state, some (.valueErrorUnpack "not enough values to unpack"))

/-- `read_state_file` (source lines 1123-1152) on the full input text: the
global `STATE` is first reset (discarding the previous state), the lines
are scanned into instructions, and only if the whole scan succeeded are
the instructions applied in file order.  Returns the final global state
together with the raised error, if any. -/
def read_state_file (text : String) (_state : State) : State × Option PyError :=
  let state := reset_state
  match read_lines (split_lines text) with
  | .error e => (state, some e)
  | .ok instructions => apply_instructions state instructions

/-! ## Coordinate transform (`draw_hexagon` lines 710-715 and `draw_cube`
lines 757-762) and the spec's geometric convention, for comparison. -/

/-- The hexagon-center transform shared by `draw_hexagon` and `draw_cube`:
`center = ORIGIN + HEXA_WIDTH*(u*UNIT_U + v*UNIT_V)`, then the extra shift
is added when present. -/
noncomputable def to_plane (position_uv : Int × Int) (extra_shift : Option (ℝ × ℝ)) : ℝ × ℝ :=
  let hexagon_center :=
    vec_add ORIGIN
      (vec_scale HEXA_WIDTH
        (vec_add (vec_scale ((position_uv.1 : ℤ) : ℝ) UNIT_U)
          (vec_scale ((position_uv.2 : ℤ) : ℝ) UNIT_V)))
  match extra_shift with
  | some shift => vec_add hexagon_center shift
  | none => hexagon_center

/-- Modelled from the spec: rotation of a plane vector by the angle `θ`
in the right-handed math convention in which Y increases upward
(counter-clockwise for positive `θ`).  Used to compare the source's
`UNIT_V` with the convention the spec asserts. -/
noncomputable def spec_rotate_right_handed (θ : ℝ) (v : ℝ × ℝ) : ℝ × ℝ :=
  (v.1 * Real.cos θ - v.2 * Real.sin θ, v.1 * Real.sin θ + v.2 * Real.cos θ)

/-- Modelled from the spec: the screen Y-flip the spec says callers must
apply themselves. -/
def spec_y_flip (v : ℝ × ℝ) : ℝ × ℝ :=
  (v.1, -v.2)

/-! ## Counting helpers for the initial-setup claim. -/

/-- The pieces stored in one position's two slots, bottom first. -/
def slot_pieces (slots : PositionState) : List CubeColoredType :=
  (match slots.1 with | some c => [c] | none => []) ++
    (match slots.2 with | some c => [c] | none => [])

/-- Number of pieces in a state satisfying a predicate on label and piece. -/
def count_pieces (s : State) (pred : String → CubeColoredType → Bool) : Nat :=
  (s.map (fun p => ((slot_pieces p.2).filter (fun c => pred p.1 c)).length)).sum

/-- Whether a label names a reserve ("extra") cell of the registry. -/
def is_extra_label (label : String) : Bool :=
  match Hexagon.find label with
  | some h => h.is_extra
  | none => false

/-- All cube types, for finite enumeration. -/
def ALL_CUBE_TYPES : List CubeType :=
  [.KING, .FOOL, .PAPER, .ROCK, .SCISSORS, .MOUNTAIN, .WISE]

/-- Both cube colors, for finite enumeration. -/
def ALL_CUBE_COLORS : List CubeColor :=
  [.BLACK, .WHITE]

/-- Reachability of a board state from `reset_state` by successful
`set_cube_at_position` operations only. -/
inductive Reachable : State → Prop where
  | reset : Reachable reset_state
  | step (s s2 : State) (position_label cube_label : String) :
      Reachable s → set_cube_at_position s position_label cube_label = .ok s2 → Reachable s2

instance : DecidableEq PositionState := inferInstance

instance : DecidableEq (String × PositionState) := inferInstance

instance : DecidableEq State := inferInstance

/-! ## Dictionary lemmas. -/

theorem dict_find_set_self {β : Type} (s : List (String × β)) (k : String) (v : β) :
    dict_find (dict_set s k v) k = some v := by
  induction s with
  | nil => simp [dict_set, dict_find]
  | cons p rest ih =>
    by_cases h : p.1 = k
    · simp [dict_set, dict_find, h]
    · simp [dict_set, dict_find, h, ih]

theorem dict_find_set_ne {β : Type} (s : List (String × β)) (k l : String) (v : β)
    (h : l ≠ k) : dict_find (dict_set s k v) l = dict_find s l := by
  induction s with
  | nil => simp [dict_set, dict_find, Ne.symm h]
  | cons p rest ih =>
    by_cases hp : p.1 = k
    · subst hp
      simp [dict_set, dict_find, Ne.symm h]
    · by_cases hl : p.1 = l
      · simp [dict_set, dict_find, hp, hl, h]
      · simp [dict_set, dict_find, hp, hl, ih]

theorem dict_find_isSome_mem {β : Type} (s : List (String × β)) (k : String)
    (h : (dict_find s k).isSome = true) : k ∈ s.map Prod.fst := by
  induction s with
  | nil => simp [dict_find] at h
  | cons p rest ih =>
    by_cases hp : p.1 = k
    · simp [hp]
    · simp only [dict_find, hp, if_false] at h
      simp [ih h]

theorem dict_find_none_not_mem {β : Type} (s : List (String × β)) (k : String)
    (h : dict_find s k = none) : ∀ p ∈ s, p.1 ≠ k := by
  induction s with
  | nil => simp
  | cons p rest ih =>
    by_cases hp : p.1 = k
    · simp [dict_find, hp] at h
    · simp only [dict_find, hp, if_false] at h
      intro q hq
      rcases List.mem_cons.mp hq with hq1 | hq1
      · simpa [hq1] using hp
      · exact ih h q hq1

theorem dict_set_absent {β : Type} (s : List (String × β)) (k : String) (v : β)
    (h : dict_find s k = none) : dict_set s k v = s ++ [(k, v)] := by
  induction s with
  | nil => simp [dict_set]
  | cons p rest ih =>
    by_cases hp : p.1 = k
    · simp [dict_find, hp] at h
    · simp only [dict_find, hp, if_false] at h
      simp [dict_set, hp, ih h]

theorem dict_find_reset_empty (l : String) (v : PositionState)
    (h : dict_find reset_state l = some v) : v = (none, none) := by
  have key : ∀ (L : List (String × Hexagon)) (l : String) (v : PositionState),
      dict_find (L.map (fun p => (p.2.label, ((none, none) : PositionState)))) l = some v →
      v = (none, none) := by
    intro L
    induction L with
    | nil => intro l v h; simp [dict_find] at h
    | cons p rest ih =>
      intro l v h
      by_cases hp : p.2.label = l
      · simp [dict_find, hp] at h
        exact h.symm
      · simp only [List.map_cons, dict_find, hp, if_false] at h
        exact ih l v h
  exact key Hexagon.alls l v h

/-! ## Shape of a successful `set_cube_at_position`. -/

theorem set_cube_ok_shape (s s2 : State) (position_label cube_label : String)
    (h : set_cube_at_position s position_label cube_label = .ok s2) :
    ∃ slots cct, dict_find s position_label = some slots ∧
      cube_colored_type cube_label = some cct ∧
      ((slots.1 = none ∧ s2 = dict_set s position_label (some cct, slots.2)) ∨
        (slots.1.isSome = true ∧ slots.2 = none ∧
          s2 = dict_set s position_label (slots.1, some cct))) := by
  by_cases hreg : (Hexagon.find position_label).isNone = true
  · simp [set_cube_at_position, hreg] at h
  · cases hfind : dict_find s position_label with
    | none => simp [set_cube_at_position, hreg, hfind] at h
    | some slots =>
      cases hs1 : slots.1 with
      | none =>
        cases hcct : cube_colored_type cube_label with
        | none => simp [set_cube_at_position, hreg, hfind, hs1, hcct] at h
        | some cct =>
          simp [set_cube_at_position, hreg, hfind, hs1, hcct] at h
          refine ⟨slots, cct, rfl, rfl, Or.inl ⟨hs1, ?_⟩⟩
          exact h.symm
      | some piece =>
        cases hs2 : slots.2 with
        | none =>
          cases hcct : cube_colored_type cube_label with
          | none => simp [set_cube_at_position, hreg, hfind, hs1, hs2, hcct] at h
          | some cct =>
            simp [set_cube_at_position, hreg, hfind, hs1, hs2, hcct] at h
            refine ⟨slots, cct, rfl, rfl, Or.inr ⟨by simp [hs1], hs2, ?_⟩⟩
            rw [hs1]
            exact h.symm
        | some piece2 =>
          simp [set_cube_at_position, hreg, hfind, hs1, hs2] at h

/-! ## Abort behaviour of the parsing loop. -/

theorem scan_error_shape (line : String) (items : List String) (e : PyError)
    (h : scan_line_items line items = .error e) :
    ∃ bad ∈ items, token_matches bad = false ∧ e = .jersiError (wrong_item_msg bad line) := by
  induction items generalizing e with
  | nil => simp [scan_line_items] at h
  | cons item rest ih =>
    cases ht : token_matches item with
    | false =>
      simp [scan_line_items, ht] at h
      exact ⟨item, List.mem_cons_self item rest, ht, h.symm⟩
    | true =>
      cases hrec : scan_line_items line rest with
      | ok tail => simp [scan_line_items, ht, hrec] at h
      | error e2 =>
        simp [scan_line_items, ht, hrec] at h
        subst h
        obtain ⟨bad, hmem, hbad, he⟩ := ih e2 hrec
        exact ⟨bad, List.mem_cons_of_mem item hmem, hbad, he⟩

theorem scan_bad_errors (line : String) (items : List String)
    (hbad : ∃ bad ∈ items, token_matches bad = false) :
    ∃ e, scan_line_items line items = .error e := by
  induction items with
  | nil => simp at hbad
  | cons item rest ih =>
    obtain ⟨bad, hmem, hb⟩ := hbad
    cases ht : token_matches item with
    | false => exact ⟨.jersiError (wrong_item_msg item line), by simp [scan_line_items, ht]⟩
    | true =>
      have hmem2 : bad ∈ rest := by
        rcases List.mem_cons.mp hmem with h1 | h1
        · rw [h1] at hb
          rw [hb] at ht
          exact absurd ht (by simp)
        · exact h1
      obtain ⟨e, he⟩ := ih ⟨bad, hmem2, hb⟩
      exact ⟨e, by simp [scan_line_items, ht, he]⟩

/-- The items of one line, as scanned by `read_lines`. -/
def line_items (line : String) : List String :=
  (split_on_char '/' (re_sub_whitespace line).data).map (fun l => (⟨l⟩ : String))

theorem read_lines_cons_blank (line : String) (rest : List String)
    (hb : is_blank_line line = true) :
    read_lines (line :: rest) = read_lines rest := by
  simp [read_lines, hb]

theorem read_lines_cons_comment (line : String) (rest : List String)
    (hb : is_blank_line line = false) (hc : is_comment_line line = true) :
    read_lines (line :: rest) = read_lines rest := by
  simp [read_lines, hb, hc]

theorem read_lines_cons_scan (line : String) (rest : List String)
    (hb : is_blank_line line = false) (hc : is_comment_line line = false) :
    read_lines (line :: rest) =
      match scan_line_items (re_sub_whitespace line) (line_items line) with
      | .error e => .error e
      | .ok instrs =>
        match read_lines rest with
        | .error e => .error e
        | .ok more => .ok (instrs ++ more) := by
  simp [read_lines, hb, hc, line_items]

theorem read_lines_error_shape (lines : List String) (e : PyError)
    (h : read_lines lines = .error e) :
    ∃ bad stripped, token_matches bad = false ∧
      e = .jersiError (wrong_item_msg bad stripped) := by
  induction lines generalizing e with
  | nil => simp [read_lines] at h
  | cons line rest ih =>
    cases hb : is_blank_line line with
    | true =>
      rw [read_lines_cons_blank line rest hb] at h
      exact ih e h
    | false =>
      cases hc : is_comment_line line with
      | true =>
        rw [read_lines_cons_comment line rest hb hc] at h
        exact ih e h
      | false =>
        rw [read_lines_cons_scan line rest hb hc] at h
        cases hscan : scan_line_items (re_sub_whitespace line) (line_items line) with
        | error e2 =>
          rw [hscan] at h
          simp at h
          subst h
          obtain ⟨bad, _, hbad, he⟩ :=
            scan_error_shape (re_sub_whitespace line) (line_items line) e2 hscan
          exact ⟨bad, re_sub_whitespace line, hbad, he⟩
        | ok instrs =>
          rw [hscan] at h
          cases hrec : read_lines rest with
          | error e2 =>
            rw [hrec] at h
            simp at h
            subst h
            exact ih e2 hrec
          | ok more =>
            rw [hrec] at h
            simp at h

theorem read_lines_bad_errors (lines : List String)
    (hbad : ∃ line ∈ lines, is_blank_line line = false ∧ is_comment_line line = false ∧
      ∃ item ∈ line_items line, token_matches item = false) :
    ∃ e, read_lines lines = .error e := by
  induction lines with
  | nil => simp at hbad
  | cons line rest ih =>
    obtain ⟨wline, hmem, hwb, hwc, hwitem⟩ := hbad
    rcases List.mem_cons.mp hmem with h1 | h1
    · subst h1
      obtain ⟨e, he⟩ := scan_bad_errors (re_sub_whitespace wline) (line_items wline) hwitem
      refine ⟨e, ?_⟩
      rw [read_lines_cons_scan wline rest hwb hwc, he]
    · cases hb : is_blank_line line with
      | true =>
        obtain ⟨e, he⟩ := ih ⟨wline, h1, hwb, hwc, hwitem⟩
        exact ⟨e, by rw [read_lines_cons_blank line rest hb]; exact he⟩
      | false =>
        cases hc : is_comment_line line with
        | true =>
          obtain ⟨e, he⟩ := ih ⟨wline, h1, hwb, hwc, hwitem⟩
          exact ⟨e, by rw [read_lines_cons_comment line rest hb hc]; exact he⟩
        | false =>
          cases hscan : scan_line_items (re_sub_whitespace line) (line_items line) with
          | error e2 =>
            refine ⟨e2, ?_⟩
            rw [read_lines_cons_scan line rest hb hc, hscan]
          | ok instrs =>
            obtain ⟨e, he⟩ := ih ⟨wline, h1, hwb, hwc, hwitem⟩
            refine ⟨e, ?_⟩
            rw [read_lines_cons_scan line rest hb hc, hscan, he]

/-! ## Token grammar versus the decode table. -/

theorem split_colon_three (c r : Char) (hc : c ≠ ':') (hr : r ≠ ':') :
    split_on_char ':' [c, ':', r] = [[c], [r]] := by
  simp [split_on_char, hc, hr]

theorem split_colon_four (c r d : Char) (hc : c ≠ ':') (hr : r ≠ ':') (hd : d ≠ ':') :
    split_on_char ':' [c, ':', r, d] = [[c], [r, d]] := by
  simp [split_on_char, hc, hr, hd]

theorem contains_mem_chars (L : List Char) (c : Char) (h : L.contains c = true) : c ∈ L := by
  simpa using h

theorem code_char_ne_colon (c : Char) (h : c ∈ CODE_CHARS) : c ≠ ':' := by
  fin_cases h <;> decide

theorem code_char_decodes (c : Char) (h : c ∈ CODE_CHARS) :
    (cube_colored_type (⟨[c]⟩ : String)).isSome = true := by
  fin_cases h <;> decide

theorem row_char_ne_colon (r : Char) (h : 'a' ≤ r) : r ≠ ':' := by
  intro he
  subst he
  exact absurd h (by decide)

theorem digit_char_ne_colon (d : Char) (h : d ≤ '9') : d ≠ ':' := by
  intro he
  subst he
  exact absurd h (by decide)

theorem token_instruction_decodes (item : String) (h : token_matches item = true) :
    ∃ cube position, item_instruction item = [cube, position] ∧
      (cube_colored_type cube).isSome = true := by
  unfold token_matches at h
  rcases hd : item.data with _ | ⟨c1, _ | ⟨c2, _ | ⟨c3, _ | ⟨c4, _ | ⟨c5, tail⟩⟩⟩⟩⟩ <;>
    rw [hd] at h
  · simp [token_chars_match] at h
  · simp [token_chars_match] at h
  · simp [token_chars_match] at h
  · simp only [token_chars_match, Bool.and_eq_true, decide_eq_true_eq] at h
    obtain ⟨⟨hcolon, hcode⟩, hrow, _⟩ := h
    subst hcolon
    have hc1 : c1 ∈ CODE_CHARS := contains_mem_chars CODE_CHARS c1 hcode
    refine ⟨⟨[c1]⟩, ⟨[c3]⟩, ?_, code_char_decodes c1 hc1⟩
    simp [item_instruction, hd,
      split_colon_three c1 c3 (code_char_ne_colon c1 hc1) (row_char_ne_colon c3 hrow)]
  · simp only [token_chars_match, Bool.and_eq_true, decide_eq_true_eq] at h
    obtain ⟨⟨⟨hcolon, hcode⟩, hrow, _⟩, _, hdig⟩ := h
    subst hcolon
    have hc1 : c1 ∈ CODE_CHARS := contains_mem_chars CODE_CHARS c1 hcode
    refine ⟨⟨[c1]⟩, ⟨[c3, c4]⟩, ?_, code_char_decodes c1 hc1⟩
    simp [item_instruction, hd,
      split_colon_four c1 c3 c4 (code_char_ne_colon c1 hc1) (row_char_ne_colon c3 hrow)
        (digit_char_ne_colon c4 hdig)]
  · simp [token_chars_match] at h

theorem set_cube_no_cube_keyError (s : State) (position_label cube_label : String)
    (h : (cube_colored_type cube_label).isSome = true) :
    set_cube_at_position s position_label cube_label ≠ .error (.keyError cube_label) := by
  intro heq
  have hmem0 : cube_label ∈ CUBE_COLORED_TYPES.map Prod.fst :=
    dict_find_isSome_mem CUBE_COLORED_TYPES cube_label h
  have hmem : cube_label ∈ ["K", "F", "R", "P", "S", "M", "W",
      "k", "f", "r", "p", "s", "m", "w"] := by
    simpa [CUBE_COLORED_TYPES] using hmem0
  have hunreg : (Hexagon.find cube_label).isNone = true := by
    fin_cases hmem <;> decide
  obtain ⟨cct, hcct⟩ := Option.isSome_iff_exists.mp h
  by_cases hreg : (Hexagon.find position_label).isNone = true
  · simp [set_cube_at_position, hreg] at heq
  · cases hfind : dict_find s position_label with
    | none =>
      simp [set_cube_at_position, hreg, hfind] at heq
      rw [heq] at hreg
      exact hreg hunreg
    | some slots =>
      cases hs1 : slots.1 with
      | none => simp [set_cube_at_position, hreg, hfind, hs1, hcct] at heq
      | some piece =>
        cases hs2 : slots.2 with
        | none => simp [set_cube_at_position, hreg, hfind, hs1, hs2, hcct] at heq
        | some piece2 => simp [set_cube_at_position, hreg, hfind, hs1, hs2, hcct] at heq

/-! ## Claim theorems. -/

/-- C1: pushing onto the stack at label `c` succeeds from 0 and from 1
pieces; the third push is refused with the state left unchanged (still the
same 2 pieces in order), but the failure is the source's bare-string
`raise("No room ...")`, which in Python 3 is a `TypeError` whose intended
message is never delivered — not a structured stack-overflow error.  This
theorem evaluates the code at that failing input. -/
theorem claim_C1 :
    (run_setup reset_state [("c", "W"), ("c", "W")]).2 = none ∧
    dict_find (run_setup reset_state [("c", "W"), ("c", "W")]).1 "c"
      = some (some (.WISE, .WHITE), some (.WISE, .WHITE)) ∧
    run_setup reset_state [("c", "W"), ("c", "W"), ("c", "W")]
      = ((run_setup reset_state [("c", "W"), ("c", "W")]).1,
          some (.typeErrorRaiseNonException "No room for cube 'W' at position 'c' !!!")) := by
  decide

/-- C2: whenever some non-blank, non-comment line of the input contains a
fragment failing the token pattern, the parse aborts with a `JersiError`
whose message references a failing token and its stripped line, and the
returned state is the freshly reset one: no instruction has been applied,
no partial or best-effort state is produced. -/
theorem claim_C2 (text : String) (s0 : State)
    (h : ∃ line ∈ split_lines text, is_blank_line line = false ∧
      is_comment_line line = false ∧
      ∃ item ∈ line_items line, token_matches item = false) :
    ∃ bad stripped, token_matches bad = false ∧
      read_state_file text s0
        = (reset_state, some (.jersiError (wrong_item_msg bad stripped))) := by
  obtain ⟨e, he⟩ := read_lines_bad_errors (split_lines text) h
  obtain ⟨bad, stripped, hbad, hshape⟩ := read_lines_error_shape (split_lines text) e he
  refine ⟨bad, stripped, hbad, ?_⟩
  simp only [read_state_file]
  rw [he, hshape]

/-- C2 witness: the input `"X:a4\n"` fails with the error referencing the
token `"X:a4"` and returns the reset state. -/
theorem claim_C2_witness :
    ∃ bad stripped, token_matches bad = false ∧
      read_state_file "X:a4\n" reset_state
        = (reset_state, some (.jersiError (wrong_item_msg bad stripped))) :=
  claim_C2 "X:a4\n" reset_state (by decide)

/-- C3 (amended): a failing load does propagate a single error to the
caller, but the pre-load state is not preserved: `read_state_file` begins
by resetting the global state, so the result is entirely independent of
the pre-load state, and a parse-stage failure returns exactly the reset
state together with the error. -/
theorem claim_C3 (text : String) (s0 s0' : State) :
    read_state_file text s0 = read_state_file text s0' ∧
    (∀ e, read_lines (split_lines text) = .error e →
      read_state_file text s0 = (reset_state, some e)) := by
  refine ⟨rfl, ?_⟩
  intro e he
  simp only [read_state_file]
  rw [he]

/-- C3 counterexample: loading `"X:a4\n"` over the displayed initial
position fails, yet the state is not the pre-load state (it was reset);
and loading `"K:a1/K:d\n"` (well-formed tokens, unknown position `d`)
fails after partially overwriting the state: label `a1` now holds the
KING although the pre-load state held the PAPER there. -/
theorem claim_C3_counterexample :
    (read_state_file "X:a4\n" init_state.1).2.isSome = true ∧
    (read_state_file "X:a4\n" init_state.1).1 ≠ init_state.1 ∧
    (read_state_file "K:a1/K:d\n" init_state.1).2.isSome = true ∧
    dict_find (read_state_file "K:a1/K:d\n" init_state.1).1 "a1"
      = some (some (.KING, .WHITE), none) ∧
    dict_find init_state.1 "a1" = some (some (.PAPER, .WHITE), none) := by
  decide

/-- C3 witness: the amended claim applied to the failing input `"X:a4\n"`
over the displayed initial position. -/
theorem claim_C3_witness :
    read_state_file "X:a4\n" init_state.1
      = (reset_state, some (.jersiError (wrong_item_msg "X:a4" "X:a4"))) :=
  (claim_C3 "X:a4\n" init_state.1 reset_state).2
    (.jersiError (wrong_item_msg "X:a4" "X:a4")) (by rfl)

/-- C4: adding a cell with consistent reserve arguments fails with the
duplicate-label `JersiError` exactly when the label is registered,
otherwise inserts the new cell at the end and succeeds; a successful add
preserves label uniqueness, and the startup registry's labels are all
distinct. -/
theorem claim_C4 (alls : List (String × Hexagon)) (label : String)
    (position_uv : Int × Int) (color : String) (is_extra : Bool)
    (extra_shift : Option (ℚ × ℚ)) (hc : is_extra = extra_shift.isSome) :
    ((dict_find alls label).isSome = true →
      Hexagon.add alls label position_uv color is_extra extra_shift
        = .error (.jersiError ("no hexagon with label '" ++ label ++ "'"))) ∧
    (dict_find alls label = none →
      Hexagon.add alls label position_uv color is_extra extra_shift
        = .ok (alls ++ [(label, ⟨label, position_uv, color, is_extra, extra_shift⟩)])) ∧
    (∀ alls2, Hexagon.add alls label position_uv color is_extra extra_shift = .ok alls2 →
      (alls.map Prod.fst).Nodup → (alls2.map Prod.fst).Nodup) ∧
    (Hexagon.alls.map Prod.fst).Nodup := by
  refine ⟨?_, ?_, ?_, by decide⟩
  · intro h
    simp [Hexagon.add, h]
  · intro h
    have hstep : Hexagon.add alls label position_uv color is_extra extra_shift
        = .ok (dict_set alls label ⟨label, position_uv, color, is_extra, extra_shift⟩) := by
      simp [Hexagon.add, h, hc]
    rw [hstep, dict_set_absent alls label _ h]
  · intro alls2 hok hnd
    by_cases hfind : (dict_find alls label).isSome = true
    · simp [Hexagon.add, hfind] at hok
    · have hnone : dict_find alls label = none := by
        cases hek : dict_find alls label
        · rfl
        · rw [hek] at hfind
          exact absurd rfl hfind
      have hstep : Hexagon.add alls label position_uv color is_extra extra_shift
          = .ok (dict_set alls label ⟨label, position_uv, color, is_extra, extra_shift⟩) := by
        simp [Hexagon.add, hnone, hc]
      rw [hstep] at hok
      have hok2 : dict_set alls label ⟨label, position_uv, color, is_extra, extra_shift⟩
          = alls2 := by
        simpa using hok
      rw [← hok2, dict_set_absent alls label _ hnone, List.map_append]
      rw [List.nodup_append]
      refine ⟨hnd, List.nodup_singleton _, ?_⟩
      intro a ha hb
      simp only [List.map_cons, List.map_nil, List.mem_singleton] at hb
      obtain ⟨p, hp, hpa⟩ := List.mem_map.mp ha
      exact dict_find_none_not_mem alls label hnone p hp (by rw [hpa, hb])

/-- C4 witness: re-adding the registered label `a1` fails with the
duplicate-label error; adding the fresh label `z9` succeeds by appending;
the startup registry's labels are distinct. -/
theorem claim_C4_witness :
    Hexagon.add Hexagon.alls "a1" (-1, -4) HexagonColor.OUTER.value false none
      = .error (.jersiError ("no hexagon with label '" ++ "a1" ++ "'")) ∧
    Hexagon.add Hexagon.alls "z9" (0, 0) HexagonColor.OUTER.value false none
      = .ok (Hexagon.alls ++ [("z9", ⟨"z9", (0, 0), HexagonColor.OUTER.value, false, none⟩)]) ∧
    (Hexagon.alls.map Prod.fst).Nodup :=
  ⟨(claim_C4 Hexagon.alls "a1" (-1, -4) HexagonColor.OUTER.value false none rfl).1 (by rfl),
    (claim_C4 Hexagon.alls "z9" (0, 0) HexagonColor.OUTER.value false none rfl).2.1 (by rfl),
    (claim_C4 Hexagon.alls "z9" (0, 0) HexagonColor.OUTER.value false none rfl).2.2.2⟩

/-- C5: parsing `"K:a4\nk:i4\n"` succeeds; the stack at `a4` is exactly
one white KING, the stack at `i4` exactly one black KING, every other
registered label is empty; and the decode table is a bijection between the
14 code characters and the 14 colored piece types, with uppercase codes
giving WHITE, lowercase giving BLACK, and the letter (up to case) equal to
the kind's enum value. -/
theorem claim_C5 (s0 : State) :
    (read_state_file "K:a4\nk:i4\n" s0).2 = none ∧
    dict_find (read_state_file "K:a4\nk:i4\n" s0).1 "a4"
      = some (some (.KING, .WHITE), none) ∧
    dict_find (read_state_file "K:a4\nk:i4\n" s0).1 "i4"
      = some (some (.KING, .BLACK), none) ∧
    ((read_state_file "K:a4\nk:i4\n" s0).1.all
      (fun p => p.1 == "a4" || p.1 == "i4" ||
        decide (p.2 = ((none, none) : PositionState)))) = true ∧
    (CUBE_COLORED_TYPES.map Prod.snd).Nodup ∧
    (ALL_CUBE_TYPES.all (fun t => ALL_CUBE_COLORS.all (fun col =>
      CUBE_COLORED_TYPES.any (fun p => decide (p.2 = (t, col)))))) = true ∧
    (CUBE_COLORED_TYPES.all (fun p =>
      (!(p.1.data.all Char.isUpper) || p.2.2.isWhite) &&
      (!(p.1.data.all Char.isLower) || !p.2.2.isWhite) &&
      decide (p.1.data.map Char.toUpper = (p.2.1.value).data))) = true := by
  have h : (read_state_file "K:a4\nk:i4\n" reset_state).2 = none ∧
      dict_find (read_state_file "K:a4\nk:i4\n" reset_state).1 "a4"
        = some (some (.KING, .WHITE), none) ∧
      dict_find (read_state_file "K:a4\nk:i4\n" reset_state).1 "i4"
        = some (some (.KING, .BLACK), none) ∧
      ((read_state_file "K:a4\nk:i4\n" reset_state).1.all
        (fun p => p.1 == "a4" || p.1 == "i4" ||
          decide (p.2 = ((none, none) : PositionState)))) = true ∧
      (CUBE_COLORED_TYPES.map Prod.snd).Nodup ∧
      (ALL_CUBE_TYPES.all (fun t => ALL_CUBE_COLORS.all (fun col =>
        CUBE_COLORED_TYPES.any (fun p => decide (p.2 = (t, col)))))) = true ∧
      (CUBE_COLORED_TYPES.all (fun p =>
        (!(p.1.data.all Char.isUpper) || p.2.2.isWhite) &&
        (!(p.1.data.all Char.isLower) || !p.2.2.isWhite) &&
        decide (p.1.data.map Char.toUpper = (p.2.1.value).data))) = true := by
    decide
  exact h

/-- C6 counterexample: `UNIT_V` is not `UNIT_U` rotated by +60 degrees in
the right-handed (Y upward) math convention — componentwise, the source's
vector has the opposite second component. -/
theorem claim_C6_counterexample :
    UNIT_V ≠ spec_rotate_right_handed (Real.pi / 3) UNIT_U := by
  intro h
  have h2 := congrArg Prod.snd h
  simp [UNIT_V, UNIT_U, UNIT_X, UNIT_Y, vec_add, vec_scale,
    spec_rotate_right_handed, HEXA_SIDE_ANGLE, HEXA_VERTEX_COUNT] at h2
  rw [show (2 * Real.pi / 6 : ℝ) = Real.pi / 3 by ring] at h2
  rw [Real.sin_pi_div_three] at h2
  have h3 : (0 : ℝ) < Real.sqrt 3 := Real.sqrt_pos.mpr (by norm_num)
  nlinarith [h2, h3]

/-- C6 (amended): the screen Y-flip is baked into the transform through
`UNIT_Y = (0, -1)`: `UNIT_V` equals the Y-flip of `UNIT_U` rotated by +60
degrees in the right-handed convention — equivalently, `UNIT_U` rotated by
-60 degrees in raw components — and the transform's outputs are screen
coordinates consumed directly by the canvas, no caller applies a flip. -/
theorem claim_C6 :
    UNIT_V = spec_y_flip (spec_rotate_right_handed (Real.pi / 3) UNIT_U) ∧
    UNIT_V = spec_rotate_right_handed (-(Real.pi / 3)) UNIT_U ∧
    UNIT_Y = (0, -1) := by
  have hangle : HEXA_SIDE_ANGLE = Real.pi / 3 := by
    simp only [HEXA_SIDE_ANGLE, HEXA_VERTEX_COUNT]
    ring
  refine ⟨?_, ?_, rfl⟩
  · simp [UNIT_V, UNIT_U, UNIT_X, UNIT_Y, vec_add, vec_scale, spec_y_flip,
      spec_rotate_right_handed, hangle, Prod.ext_iff]
  · simp [UNIT_V, UNIT_U, UNIT_X, UNIT_Y, vec_add, vec_scale,
      spec_rotate_right_handed, hangle, Real.cos_neg, Real.sin_neg, Prod.ext_iff]

/-- C7: the logical-to-plane transform is a pure function: equal inputs
give equal outputs, the no-shift value is exactly
`ORIGIN + HEXA_WIDTH*(u*UNIT_U + v*UNIT_V)`, and supplying a shift
translates the result by exactly that vector. -/
theorem claim_C7 (position_uv : Int × Int) (extra_shift : Option (ℝ × ℝ)) (off : ℝ × ℝ) :
    to_plane position_uv extra_shift = to_plane position_uv extra_shift ∧
    to_plane position_uv none
      = vec_add ORIGIN
          (vec_scale HEXA_WIDTH
            (vec_add (vec_scale ((position_uv.1 : ℤ) : ℝ) UNIT_U)
              (vec_scale ((position_uv.2 : ℤ) : ℝ) UNIT_V))) ∧
    to_plane position_uv (some off) = vec_add (to_plane position_uv none) off :=
  ⟨rfl, rfl, rfl⟩

/-- C8 counterexample: the fixed initial setup does not yield 44 pieces. -/
theorem claim_C8_counterexample :
    count_pieces init_state.1 (fun _ _ => true) ≠ 44 := by
  decide

/-- C8 (amended): the fixed initial setup succeeds and yields exactly 42
pieces: a 15-piece home rank per color on the regular cells plus 6 reserve
pieces per color on the reserve cells. -/
theorem claim_C8 :
    init_state.2 = none ∧
    count_pieces init_state.1 (fun _ _ => true) = 42 ∧
    count_pieces init_state.1 (fun l c => !is_extra_label l && c.2.isWhite) = 15 ∧
    count_pieces init_state.1 (fun l c => !is_extra_label l && !c.2.isWhite) = 15 ∧
    count_pieces init_state.1 (fun l c => is_extra_label l && c.2.isWhite) = 6 ∧
    count_pieces init_state.1 (fun l c => is_extra_label l && !c.2.isWhite) = 6 := by
  decide

/-- C9: every grammar-accepted token splits into a code and a position
whose code the decode table always resolves; the code characters of the
token pattern are exactly the keys of the decode table (in order); and
applying a piece whose code the table resolves can never fail with a
`KeyError` on that code — the mis-aimed second guard (which re-checks the
position label) notwithstanding. -/
theorem claim_C9 :
    (∀ item : String, token_matches item = true →
      ∃ cube position, item_instruction item = [cube, position] ∧
        (cube_colored_type cube).isSome = true) ∧
    CODE_CHARS.map (fun c => (⟨[c]⟩ : String)) = CUBE_COLORED_TYPES.map Prod.fst ∧
    (∀ (s : State) (position_label cube_label : String),
      (cube_colored_type cube_label).isSome = true →
      set_cube_at_position s position_label cube_label
        ≠ .error (.keyError cube_label)) :=
  ⟨token_instruction_decodes, by decide, set_cube_no_cube_keyError⟩

/-- C9 witness: the token `"K:a4"` splits into a decodable code and a
position, and applying code `"K"` at `a4` on the reset state cannot fail
with a `KeyError` on `"K"`. -/
theorem claim_C9_witness :
    (∃ cube position, item_instruction "K:a4" = [cube, position] ∧
      (cube_colored_type cube).isSome = true) ∧
    set_cube_at_position reset_state "a4" "K" ≠ .error (.keyError "K") :=
  ⟨claim_C9.1 "K:a4" (by decide), claim_C9.2.2 reset_state "a4" "K" (by decide)⟩

/-- C10: in every state reachable from a reset by successful placements,
a label whose top slot is occupied has its bottom slot occupied as well
(stacks fill bottom-first) — the invariant `draw_state`'s case analysis
relies on. -/
theorem claim_C10 (s : State) (hs : Reachable s) (l : String)
    (b t : Option CubeColoredType) (hl : dict_find s l = some (b, t))
    (ht : t.isSome = true) : b.isSome = true := by
  induction hs generalizing l b t with
  | reset =>
    have h0 := dict_find_reset_empty l (b, t) hl
    rw [Prod.mk.injEq] at h0
    rw [h0.2] at ht
    simp at ht
  | step s s2 position_label cube_label hr hset ih =>
    obtain ⟨slots, cct, hfind, hcct, hcases⟩ :=
      set_cube_ok_shape s s2 position_label cube_label hset
    by_cases hpos : l = position_label
    · subst hpos
      rcases hcases with ⟨h1, hs2⟩ | ⟨h1, h2, hs2⟩
      · rw [hs2, dict_find_set_self] at hl
        have := (Option.some.injEq _ _).mp hl
        rw [Prod.mk.injEq] at this
        rw [← this.1]
        simp
      · rw [hs2, dict_find_set_self] at hl
        have := (Option.some.injEq _ _).mp hl
        rw [Prod.mk.injEq] at this
        rw [← this.1]
        exact h1
    · rcases hcases with ⟨h1, hs2⟩ | ⟨h1, h2, hs2⟩ <;>
        (rw [hs2, dict_find_set_ne _ _ _ _ hpos] at hl; exact ih l b t hl ht)

/-- C10 witness: the two-push state at label `c` is reachable and its top
slot is occupied, so the theorem yields occupancy of the bottom slot. -/
theorem claim_C10_witness :
    dict_find (run_setup reset_state [("c", "W"), ("c", "W")]).1 "c"
      = some (some (.WISE, .WHITE), some (.WISE, .WHITE)) ∧
    (some ((CubeType.WISE, CubeColor.WHITE) : CubeColoredType)).isSome = true := by
  refine ⟨by decide, ?_⟩
  have h1 : set_cube_at_position reset_state "c" "W"
      = .ok (run_setup reset_state [("c", "W")]).1 := by rfl
  have h2 : set_cube_at_position (run_setup reset_state [("c", "W")]).1 "c" "W"
      = .ok (run_setup reset_state [("c", "W"), ("c", "W")]).1 := by rfl
  have hr : Reachable (run_setup reset_state [("c", "W"), ("c", "W")]).1 :=
    Reachable.step _ _ _ _ (Reachable.step _ _ _ _ Reachable.reset h1) h2
  exact claim_C10 (run_setup reset_state [("c", "W"), ("c", "W")]).1 hr "c"
    (some (CubeType.WISE, CubeColor.WHITE)) (some (CubeType.WISE, CubeColor.WHITE))
    (by decide) (by decide)
